import Mathlib

/-!
Verification of the SysMonitor++ sampling and derivation engine
(src/sysmonitor.c) against its natural-language specification.

The C source is shallowly embedded: unsigned 64-bit machine arithmetic is
modelled on Nat with explicit reduction modulo 2^64 where the C code can
wrap, C doubles are modelled exactly as rationals, and every fallible
C routine returns an Option.
-/

/-- 2^64; the modulus of the C type unsigned long long / unsigned long
on the 64-bit Linux targets this program is written for. -/
def U64 : Nat := 18446744073709551616

/-- C unsigned 64-bit subtraction a - b (wraps modulo 2^64). -/
def wsub (a b : Nat) : Nat := (((a : Int) - (b : Int)) % (U64 : Int)).toNat

-- ==================== CPU USAGE MODULE ====================

/-- The seven counters of the aggregate cpu line of /proc/stat, in the
order the C code reads them (sysmonitor.c lines 110-111, 127-128). -/
structure CpuStats where
  user : Nat
  nice : Nat
  system : Nat
  idle : Nat
  iowait : Nat
  irq : Nat
  softirq : Nat
deriving DecidableEq, Repr

/-- The process-wide static state of the CPU sampler: the seven
prev_* counters and the first_run flag (sysmonitor.c lines 110-112). -/
structure CpuGlobals where
  prev : CpuStats
  first_run : Bool
deriving DecidableEq, Repr

/-- C statics are zero-initialised; first_run starts at 1. -/
def cpuInitGlobals : CpuGlobals := ⟨⟨0, 0, 0, 0, 0, 0, 0⟩, true⟩

/-- The idle_delta computed at sysmonitor.c line 161 (u64 subtraction). -/
def idleDeltaW (p c : CpuStats) : Nat := wsub c.idle p.idle

/-- total_delta as computed at sysmonitor.c lines 166-167: the seven u64
deltas added with u64 (wrapping) addition. -/
def totalDeltaW (p c : CpuStats) : Nat :=
  (wsub c.user p.user + wsub c.nice p.nice + wsub c.system p.system +
   wsub c.idle p.idle + wsub c.iowait p.iowait + wsub c.irq p.irq +
   wsub c.softirq p.softirq) % U64

/-- calculateCPUUsage (sysmonitor.c lines 141-184), with the mutation of
the statics made explicit: returns the double result (as an exact
rational; -1.0 is the first-run sentinel) and the new static state.
On the total_delta == 0 path the C code returns before the prev_*
assignments at lines 175-181, so the state is returned unchanged. -/
def calculateCPUUsage (g : CpuGlobals) (c : CpuStats) : ℚ × CpuGlobals :=
  if g.first_run then
    (-1, ⟨c, false⟩)
  else
    let total_delta := totalDeltaW g.prev c
    if total_delta = 0 then
      (0, g)
    else
      let cpu_usage : ℚ :=
        100 * (1 - ((idleDeltaW g.prev c : ℚ) / (total_delta : ℚ)))
      (cpu_usage, ⟨c, false⟩)

/-- getCPUUsage (sysmonitor.c line 221) takes the branch that prints the
warmup message exactly when the returned value is negative. -/
def reportsWarmup (r : ℚ) : Prop := r < 0

/-- Fieldwise comparison: every counter of c is at least the matching
counter of p (non-negative per-field deltas). -/
def statsLE (p c : CpuStats) : Prop :=
  p.user ≤ c.user ∧ p.nice ≤ c.nice ∧ p.system ≤ c.system ∧
  p.idle ≤ c.idle ∧ p.iowait ≤ c.iowait ∧ p.irq ≤ c.irq ∧
  p.softirq ≤ c.softirq

instance (p c : CpuStats) : Decidable (statsLE p c) := by
  unfold statsLE
  infer_instance

/-- Every counter of c fits in the C type unsigned long long. -/
def statsLt64 (c : CpuStats) : Prop :=
  c.user < U64 ∧ c.nice < U64 ∧ c.system < U64 ∧ c.idle < U64 ∧
  c.iowait < U64 ∧ c.irq < U64 ∧ c.softirq < U64

instance (c : CpuStats) : Decidable (statsLt64 c) := by
  unfold statsLt64
  infer_instance

/-- The mathematical (non-wrapping) sum of the seven per-field deltas;
it equals the code's total_delta whenever it is below 2^64. -/
def sumDelta (p c : CpuStats) : Nat :=
  (c.user - p.user) + (c.nice - p.nice) + (c.system - p.system) +
  (c.idle - p.idle) + (c.iowait - p.iowait) + (c.irq - p.irq) +
  (c.softirq - p.softirq)

/-- An all-zero snapshot. -/
def zeroStats : CpuStats := ⟨0, 0, 0, 0, 0, 0, 0⟩

-- ==================== SUPPORTING LEMMAS (CPU) ====================

theorem wsub_eq_sub {a b : Nat} (hba : b ≤ a) (ha : a < U64) :
    wsub a b = a - b := by
  unfold wsub U64 at *
  omega

theorem totalDeltaW_eq {p c : CpuStats} (hle : statsLE p c)
    (hlt : statsLt64 c) (hs : sumDelta p c < U64) :
    totalDeltaW p c = sumDelta p c := by
  obtain ⟨h1, h2, h3, h4, h5, h6, h7⟩ := hle
  obtain ⟨b1, b2, b3, b4, b5, b6, b7⟩ := hlt
  unfold totalDeltaW sumDelta at *
  rw [wsub_eq_sub h1 b1, wsub_eq_sub h2 b2, wsub_eq_sub h3 b3,
    wsub_eq_sub h4 b4, wsub_eq_sub h5 b5, wsub_eq_sub h6 b6,
    wsub_eq_sub h7 b7]
  exact Nat.mod_eq_of_lt hs

theorem idleDeltaW_eq {p c : CpuStats} (hle : statsLE p c)
    (hlt : statsLt64 c) : idleDeltaW p c = c.idle - p.idle :=
  wsub_eq_sub hle.2.2.2.1 hlt.2.2.2.1

theorem idleDelta_le_sumDelta (p c : CpuStats) :
    c.idle - p.idle ≤ sumDelta p c := by
  unfold sumDelta
  omega

/-- The usage formula 100 * (1 - i / t) is confined to [0, 100] for
natural i ≤ t with t positive. -/
theorem usageFormula_bounds {i t : Nat} (hit : i ≤ t) (ht : 0 < t) :
    0 ≤ 100 * (1 - ((i : ℚ) / (t : ℚ))) ∧
      100 * (1 - ((i : ℚ) / (t : ℚ))) ≤ 100 := by
  have htq : (0 : ℚ) < (t : ℚ) := by exact_mod_cast ht
  have hr0 : (0 : ℚ) ≤ (i : ℚ) / (t : ℚ) :=
    div_nonneg (by positivity) (le_of_lt htq)
  have hr1 : (i : ℚ) / (t : ℚ) ≤ 1 := by
    rw [div_le_one htq]
    exact_mod_cast hit
  constructor
  · nlinarith
  · nlinarith

instance (r : ℚ) : Decidable (reportsWarmup r) := by
  unfold reportsWarmup
  infer_instance

/-- First-run branch of calculateCPUUsage (lines 146-156): store curr,
clear first_run, return the -1.0 sentinel. -/
theorem calculateCPUUsage_firstRun {g : CpuGlobals} (c : CpuStats)
    (hfr : g.first_run = true) :
    calculateCPUUsage g c = (-1, ⟨c, false⟩) := by
  unfold calculateCPUUsage
  rw [hfr]
  rfl

/-- Zero-delta branch of calculateCPUUsage (lines 169-171): return 0.0
with the static state untouched. -/
theorem calculateCPUUsage_zeroPath {g : CpuGlobals} {c : CpuStats}
    (hfr : g.first_run = false) (hz : totalDeltaW g.prev c = 0) :
    calculateCPUUsage g c = (0, g) := by
  unfold calculateCPUUsage
  rw [hfr]
  simp [hz]

/-- Normal branch of calculateCPUUsage (lines 173-183): the usage
formula, with the statics overwritten by curr. -/
theorem calculateCPUUsage_formula {g : CpuGlobals} {c : CpuStats}
    (hfr : g.first_run = false) (hz : totalDeltaW g.prev c ≠ 0) :
    calculateCPUUsage g c =
      (100 * (1 - ((idleDeltaW g.prev c : ℚ) / (totalDeltaW g.prev c : ℚ))),
        ⟨c, false⟩) := by
  unfold calculateCPUUsage
  rw [hfr]
  simp [hz]

-- ==================== CPU CLAIMS ====================

/-- Claim C5: on any non-first call to the CPU derive step where the
computed total_delta (the u64 sum of the seven per-field deltas) is zero
— in particular when two consecutive snapshots are identical — the result
is exactly 0.0, not an error and not a division by zero. -/
theorem claim_C5 (g : CpuGlobals) (c : CpuStats)
    (hfr : g.first_run = false) (hz : totalDeltaW g.prev c = 0) :
    (calculateCPUUsage g c).1 = 0 := by
  rw [calculateCPUUsage_zeroPath hfr hz]

theorem claim_C5_witness :
    (calculateCPUUsage ⟨⟨3, 1, 4, 1, 5, 9, 2⟩, false⟩ ⟨3, 1, 4, 1, 5, 9, 2⟩).1 = 0 :=
  claim_C5 ⟨⟨3, 1, 4, 1, 5, 9, 2⟩, false⟩ ⟨3, 1, 4, 1, 5, 9, 2⟩ rfl (by decide)

/-- A snapshot whose per-field deltas from the all-zero previous snapshot
are non-negative yet sum to 2^64 + 5, overflowing the u64 total_delta
down to 5 (user = 2^63 + 5, idle = 2^63). -/
def cexStatsC6 : CpuStats := ⟨9223372036854775813, 0, 0, 9223372036854775808, 0, 0, 0⟩

/-- Claim C6 as stated is false: on a non-first call with non-negative
per-field deltas and positive computed total_delta, the usage value can
fall below 0, because the u64 sum of the deltas overflows and idle_delta
then exceeds total_delta. -/
theorem claim_C6_cex :
    statsLE zeroStats cexStatsC6 ∧
    0 < totalDeltaW zeroStats cexStatsC6 ∧
    (calculateCPUUsage ⟨zeroStats, false⟩ cexStatsC6).1 < 0 := by
  refine ⟨by decide, by decide, ?_⟩
  rw [calculateCPUUsage_formula rfl (by decide)]
  have h1 : idleDeltaW zeroStats cexStatsC6 = 9223372036854775808 := by decide
  have h2 : totalDeltaW zeroStats cexStatsC6 = 5 := by decide
  rw [h1, h2]
  norm_num

/-- Claim C6 (amended): on a non-first call with non-negative per-field
deltas whose true sum is positive and below 2^64, the usage value
100 * (1 - idle_delta / total_delta) lies in [0, 100]; an all-idle delta
(idle_delta = total_delta) yields exactly 0 and an all-busy delta
(idle_delta = 0) yields exactly 100. -/
theorem claim_C6_amended (g : CpuGlobals) (c : CpuStats)
    (hfr : g.first_run = false) (hle : statsLE g.prev c) (hlt : statsLt64 c)
    (hpos : 0 < sumDelta g.prev c) (hov : sumDelta g.prev c < U64) :
    (0 ≤ (calculateCPUUsage g c).1 ∧ (calculateCPUUsage g c).1 ≤ 100) ∧
    (c.idle - g.prev.idle = sumDelta g.prev c → (calculateCPUUsage g c).1 = 0) ∧
    (c.idle - g.prev.idle = 0 → (calculateCPUUsage g c).1 = 100) := by
  have ht : totalDeltaW g.prev c = sumDelta g.prev c := totalDeltaW_eq hle hlt hov
  have hi : idleDeltaW g.prev c = c.idle - g.prev.idle := idleDeltaW_eq hle hlt
  have hne : totalDeltaW g.prev c ≠ 0 := by rw [ht]; omega
  rw [calculateCPUUsage_formula hfr hne, hi, ht]
  have htq : ((sumDelta g.prev c : ℚ)) ≠ 0 := by
    exact_mod_cast Nat.pos_iff_ne_zero.mp hpos
  refine ⟨?_, ?_, ?_⟩
  · exact usageFormula_bounds (idleDelta_le_sumDelta g.prev c) hpos
  · intro hall
    show 100 * (1 - ((c.idle - g.prev.idle : Nat) : ℚ) / ((sumDelta g.prev c : Nat) : ℚ)) = 0
    rw [hall, div_self htq]
    ring
  · intro hbusy
    show 100 * (1 - ((c.idle - g.prev.idle : Nat) : ℚ) / ((sumDelta g.prev c : Nat) : ℚ)) = 100
    rw [hbusy]
    norm_num

theorem claim_C6_amended_witness :
    (0 ≤ (calculateCPUUsage ⟨zeroStats, false⟩ ⟨3, 0, 0, 1, 0, 0, 0⟩).1 ∧
      (calculateCPUUsage ⟨zeroStats, false⟩ ⟨3, 0, 0, 1, 0, 0, 0⟩).1 ≤ 100) ∧
    ((⟨3, 0, 0, 1, 0, 0, 0⟩ : CpuStats).idle - zeroStats.idle =
        sumDelta zeroStats ⟨3, 0, 0, 1, 0, 0, 0⟩ →
      (calculateCPUUsage ⟨zeroStats, false⟩ ⟨3, 0, 0, 1, 0, 0, 0⟩).1 = 0) ∧
    ((⟨3, 0, 0, 1, 0, 0, 0⟩ : CpuStats).idle - zeroStats.idle = 0 →
      (calculateCPUUsage ⟨zeroStats, false⟩ ⟨3, 0, 0, 1, 0, 0, 0⟩).1 = 100) :=
  claim_C6_amended ⟨zeroStats, false⟩ ⟨3, 0, 0, 1, 0, 0, 0⟩ rfl (by decide)
    (by decide) (by decide) (by decide)

/-- A snapshot dominating the all-zero snapshot fieldwise whose deltas
sum to exactly 2^64 (user = nice = 2^63), so the u64 total_delta wraps
to 0 and the zero-delta early return skips the prev_* assignments. -/
def cexStatsC3 : CpuStats := ⟨9223372036854775808, 9223372036854775808, 0, 0, 0, 0, 0⟩

/-- Claim C3 as stated is false: after a first call has retained the
all-zero snapshot, a call whose snapshot dominates the retained one
fieldwise can leave the retained snapshot unchanged (and different from
curr), because the deltas sum to 2^64, the u64 total_delta wraps to 0,
and the zero-delta path returns before the prev_* assignments. -/
theorem claim_C3_cex :
    statsLE ((calculateCPUUsage cpuInitGlobals zeroStats).2).prev cexStatsC3 ∧
    ((calculateCPUUsage ((calculateCPUUsage cpuInitGlobals zeroStats).2)
        cexStatsC3).2).prev ≠ cexStatsC3 := by
  rw [calculateCPUUsage_firstRun zeroStats rfl]
  refine ⟨by decide, ?_⟩
  rw [calculateCPUUsage_zeroPath rfl (by decide)]
  decide

/-- Claim C3 (amended): after every call to the CPU derive step with a
snapshot dominating the retained previous one fieldwise, provided the
true sum of the seven deltas is below 2^64 (no u64 overflow of
total_delta), the retained previous snapshot equals curr — on the
first-run path and the normal path it is overwritten, and on the
zero-delta path it already equals curr. -/
theorem claim_C3_amended (g : CpuGlobals) (c : CpuStats)
    (hle : statsLE g.prev c) (hlt : statsLt64 c)
    (hov : sumDelta g.prev c < U64) :
    ((calculateCPUUsage g c).2).prev = c := by
  by_cases hfr : g.first_run
  · rw [calculateCPUUsage_firstRun c hfr]
  · rw [Bool.not_eq_true] at hfr
    by_cases hz : totalDeltaW g.prev c = 0
    · rw [calculateCPUUsage_zeroPath hfr hz]
      have ht : totalDeltaW g.prev c = sumDelta g.prev c := totalDeltaW_eq hle hlt hov
      rw [ht] at hz
      obtain ⟨p, fr⟩ := g
      obtain ⟨cu, cn, cs, ci, cio, cq, cso⟩ := c
      obtain ⟨pu, pn, ps, pi, pio, pq, pso⟩ := p
      obtain ⟨h1, h2, h3, h4, h5, h6, h7⟩ := hle
      unfold sumDelta at hz
      simp only [CpuStats.mk.injEq]
      simp only at hz h1 h2 h3 h4 h5 h6 h7
      omega
    · rw [calculateCPUUsage_formula hfr hz]

theorem claim_C3_amended_witness :
    ((calculateCPUUsage ⟨⟨1, 1, 1, 1, 1, 1, 1⟩, false⟩
        ⟨2, 1, 1, 1, 1, 1, 1⟩).2).prev = ⟨2, 1, 1, 1, 1, 1, 1⟩ :=
  claim_C3_amended ⟨⟨1, 1, 1, 1, 1, 1, 1⟩, false⟩ ⟨2, 1, 1, 1, 1, 1, 1⟩
    (by decide) (by decide) (by decide)

/-- A snapshot dominating the all-zero snapshot fieldwise whose deltas
overflow the u64 total down to 6 while idle_delta is 2^63, driving the
computed usage far below zero on a second (non-first) call. -/
def cexStatsC4 : CpuStats := ⟨9223372036854775813, 0, 0, 9223372036854775808, 0, 0, 1⟩

/-- Claim C4 as stated is false in its second half: a subsequent
(non-first) call can return a negative value, which the caller
(getCPUUsage, line 221: cpu_usage < 0) reports with the warmup message,
not as a percentage — here even with a snapshot that dominates the
retained one fieldwise. The first conjunct exhibits the (true) first
half: the first call reports the warmup sentinel. -/
theorem claim_C4_cex :
    reportsWarmup (calculateCPUUsage cpuInitGlobals zeroStats).1 ∧
    statsLE ((calculateCPUUsage cpuInitGlobals zeroStats).2).prev cexStatsC4 ∧
    reportsWarmup
      (calculateCPUUsage ((calculateCPUUsage cpuInitGlobals zeroStats).2)
        cexStatsC4).1 := by
  rw [calculateCPUUsage_firstRun zeroStats rfl]
  refine ⟨by norm_num [reportsWarmup], by decide, ?_⟩
  rw [calculateCPUUsage_formula rfl (by decide)]
  have h1 : idleDeltaW zeroStats cexStatsC4 = 9223372036854775808 := by decide
  have h2 : totalDeltaW zeroStats cexStatsC4 = 6 := by decide
  unfold reportsWarmup
  rw [h1, h2]
  norm_num

/-- Claim C4 (amended): the very first call to the derive step, with any
snapshot, returns the warmup sentinel -1.0 (displayed as warmup since it
is negative), stores that snapshot as the retained previous one and
clears first_run; first_run stays cleared after every call; and every
subsequent call whose snapshot dominates the retained previous one
fieldwise, with delta total below 2^64, returns a non-negative value —
reported as a percentage, never as warmup. -/
theorem claim_C4_amended :
    (∀ (g : CpuGlobals) (c : CpuStats), g.first_run = true →
      calculateCPUUsage g c = (-1, ⟨c, false⟩) ∧
        reportsWarmup (calculateCPUUsage g c).1) ∧
    (∀ (g : CpuGlobals) (c : CpuStats),
      ((calculateCPUUsage g c).2).first_run = false) ∧
    (∀ (g : CpuGlobals) (c : CpuStats), g.first_run = false →
      statsLE g.prev c → statsLt64 c → sumDelta g.prev c < U64 →
      ¬ reportsWarmup (calculateCPUUsage g c).1) := by
  refine ⟨?_, ?_, ?_⟩
  · intro g c hfr
    rw [calculateCPUUsage_firstRun c hfr]
    exact ⟨rfl, by norm_num [reportsWarmup]⟩
  · intro g c
    by_cases hfr : g.first_run
    · rw [calculateCPUUsage_firstRun c hfr]
    · rw [Bool.not_eq_true] at hfr
      by_cases hz : totalDeltaW g.prev c = 0
      · rw [calculateCPUUsage_zeroPath hfr hz]
        exact hfr
      · rw [calculateCPUUsage_formula hfr hz]
  · intro g c hfr hle hlt hov
    by_cases hz : totalDeltaW g.prev c = 0
    · rw [calculateCPUUsage_zeroPath hfr hz]
      unfold reportsWarmup
      norm_num
    · have ht : totalDeltaW g.prev c = sumDelta g.prev c := totalDeltaW_eq hle hlt hov
      have hpos : 0 < sumDelta g.prev c := by rw [ht] at hz; omega
      have hi : idleDeltaW g.prev c = c.idle - g.prev.idle := idleDeltaW_eq hle hlt
      rw [calculateCPUUsage_formula hfr hz, hi, ht]
      unfold reportsWarmup
      push_neg
      exact (usageFormula_bounds (idleDelta_le_sumDelta g.prev c) hpos).1

theorem claim_C4_amended_witness :
    (calculateCPUUsage cpuInitGlobals ⟨5, 4, 3, 2, 1, 0, 0⟩ =
        (-1, ⟨⟨5, 4, 3, 2, 1, 0, 0⟩, false⟩) ∧
      reportsWarmup (calculateCPUUsage cpuInitGlobals ⟨5, 4, 3, 2, 1, 0, 0⟩).1) ∧
    ¬ reportsWarmup
        (calculateCPUUsage ⟨⟨5, 4, 3, 2, 1, 0, 0⟩, false⟩ ⟨6, 4, 3, 2, 1, 0, 0⟩).1 :=
  ⟨claim_C4_amended.1 cpuInitGlobals ⟨5, 4, 3, 2, 1, 0, 0⟩ rfl,
   claim_C4_amended.2.2 ⟨⟨5, 4, 3, 2, 1, 0, 0⟩, false⟩ ⟨6, 4, 3, 2, 1, 0, 0⟩ rfl
     (by decide) (by decide) (by decide)⟩

-- ==================== MEMORY USAGE MODULE ====================

/-- The six whitespace characters of isspace in the C locale, which
strtol skips before converting. -/
def isCSpace (c : Char) : Bool :=
  c = ' ' || c = '\t' || c = '\n' || c = '\x0b' || c = '\x0c' || c = '\r'

/-- Does the second list start with the first one? (the inner comparison
loop of strstr). -/
def leadsWith : List Char → List Char → Bool
  | [], _ => true
  | _ :: _, [] => false
  | a :: as, b :: bs => a == b && leadsWith as bs

/-- C strstr(haystack, needle): the suffix of the haystack starting at
the first occurrence of the needle, or none. An empty needle matches at
the start. -/
def strstrSuffix (needle : List Char) : List Char → Option (List Char)
  | [] => if needle.isEmpty then some [] else none
  | b :: bs =>
    if leadsWith needle (b :: bs) then some (b :: bs) else strstrSuffix needle bs

/-- C strtol(s, NULL, 10): skip isspace characters, take an optional
sign, convert the following decimal digits (0 when there are none), and
clamp an out-of-range value to LONG_MIN / LONG_MAX. -/
def strtolModel (l : List Char) : Int :=
  let l1 := l.dropWhile isCSpace
  let signAndRest : Bool × List Char :=
    match l1 with
    | '-' :: r => (true, r)
    | '+' :: r => (false, r)
    | _ => (false, l1)
  let ds := signAndRest.2.takeWhile Char.isDigit
  let v : Int := ds.foldl (fun a c => a * 10 + ((c.toNat : Int) - 48)) 0
  let v := if signAndRest.1 then -v else v
  max (-9223372036854775808) (min 9223372036854775807 v)

/-- The parse step of getMemoryUsage (sysmonitor.c lines 270-282):
strstr for the two labels; a missing label leaves its value at 0; a
found label is converted with strtol from just past the label text
(9 characters after MemTotal:, 8 after MemFree:). -/
def parseMemInfo (buffer : List Char) : Int × Int :=
  let memTotal_kB : Int :=
    match strstrSuffix ("MemTotal:".data) buffer with
    | none => 0
    | some totalPtr => strtolModel (totalPtr.drop 9)
  let memFree_kB : Int :=
    match strstrSuffix ("MemFree:".data) buffer with
    | none => 0
    | some freePtr => strtolModel (freePtr.drop 8)
  (memTotal_kB, memFree_kB)

/-- The record getMemoryUsage displays and logs: totals in whole MB
(C long) and the usage percentage (C double, modelled exactly). -/
structure MemorySample where
  memTotal_MB : Int
  memUsed_MB : Int
  memFree_MB : Int
  usagePercent : ℚ
deriving DecidableEq, Repr

/-- The derive step of getMemoryUsage (sysmonitor.c lines 284-292):
kB → MB by C long division by 1024, used = total - free, percentage
(used / total) * 100 guarded by memTotal_MB > 0. -/
def deriveMemory (memTotal_kB memFree_kB : Int) : MemorySample :=
  let memTotal_MB := Int.tdiv memTotal_kB 1024
  let memFree_MB := Int.tdiv memFree_kB 1024
  let memUsed_MB := memTotal_MB - memFree_MB
  let usagePercent : ℚ :=
    if 0 < memTotal_MB then ((memUsed_MB : ℚ) / (memTotal_MB : ℚ)) * 100 else 0
  ⟨memTotal_MB, memUsed_MB, memFree_MB, usagePercent⟩

/-- getMemoryUsage (sysmonitor.c lines 247-309) on the text read from
/proc/meminfo: parse the two fields, then derive the sample. -/
def getMemoryUsageModel (buffer : List Char) : MemorySample :=
  deriveMemory (parseMemInfo buffer).1 (parseMemInfo buffer).2

-- ==================== MEMORY CLAIMS ====================

/-- The blob of the worked example of the spec: 16 GiB total, 8 GiB free. -/
def blobC7 : String := "MemTotal:       16777216 kB\nMemFree:        8388608 kB\n"

/-- Claim C7: the derive step reports 0.0 percent when total is 0;
kibibytes convert to megabytes by truncating integer division by 1024
(1048575 kB → 1023 MB, not 1024); and on the blob with
MemTotal = 16777216 kB, MemFree = 8388608 kB the call produces
total 16384 MB, used 8192 MB, free 8192 MB and exactly 50 percent. -/
theorem claim_C7 :
    (∀ f : Int, (deriveMemory 0 f).usagePercent = 0) ∧
    (deriveMemory 1048575 0).memTotal_MB = 1023 ∧
    getMemoryUsageModel blobC7.data = ⟨16384, 8192, 8192, 50⟩ := by
  refine ⟨?_, by decide, ?_⟩
  · intro f
    unfold deriveMemory
    norm_num
  · have hp : parseMemInfo blobC7.data = (16777216, 8388608) := by decide
    unfold getMemoryUsageModel
    rw [hp]
    have h1 : Int.tdiv 16777216 1024 = 16384 := by decide
    have h2 : Int.tdiv 8388608 1024 = 8192 := by decide
    unfold deriveMemory
    simp only [h1, h2]
    norm_num [MemorySample.mk.injEq]

/-- A meminfo blob that carries MemTotal (2048 kB) but no MemFree line. -/
def blobC8 : String := "MemTotal:       2048 kB\nSwapCached:            0 kB\n"

/-- Claim C8: a blob without the MemTotal label parses to total 0 and a
blob without the MemFree label parses to free 0 (the call degrades
instead of failing); on a blob with MemTotal = 2048 kB and no MemFree
line the call produces free 0 MB, used = total = 2 MB and exactly
100 percent. -/
theorem claim_C8 :
    (∀ buffer : List Char, strstrSuffix ("MemTotal:".data) buffer = none →
      (parseMemInfo buffer).1 = 0) ∧
    (∀ buffer : List Char, strstrSuffix ("MemFree:".data) buffer = none →
      (parseMemInfo buffer).2 = 0) ∧
    getMemoryUsageModel blobC8.data = ⟨2, 2, 0, 100⟩ := by
  refine ⟨?_, ?_, ?_⟩
  · intro buffer h
    unfold parseMemInfo
    rw [h]
  · intro buffer h
    unfold parseMemInfo
    rw [h]
  · have hp : parseMemInfo blobC8.data = (2048, 0) := by decide
    unfold getMemoryUsageModel
    rw [hp]
    have h1 : Int.tdiv 2048 1024 = 2 := by decide
    have h2 : Int.tdiv 0 1024 = 0 := by decide
    unfold deriveMemory
    simp only [h1, h2]
    norm_num [MemorySample.mk.injEq]

theorem claim_C8_witness :
    strstrSuffix ("MemFree:".data) blobC8.data = none ∧
    (parseMemInfo blobC8.data).2 = 0 :=
  ⟨by decide, claim_C8.2.1 blobC8.data (by decide)⟩

-- ==================== TOP PROCESSES MODULE ====================

/-- C strchr(s, c): the suffix of s starting at the FIRST occurrence of
c, or none. -/
def strchrSuffix (c : Char) : List Char → Option (List Char)
  | [] => none
  | a :: rest => if a = c then some (a :: rest) else strchrSuffix c rest

/-- C strrchr(s, c): the suffix of s starting at the LAST occurrence of
c, or none. Used only by the spec-anchored variant below. -/
def strrchrSuffix (c : Char) : List Char → Option (List Char)
  | [] => none
  | a :: rest =>
    match strrchrSuffix c rest with
    | some r => some r
    | none => if a = c then some (a :: rest) else none

/-- The field-skipping loop of readProcessStat (sysmonitor.c lines
409-415): n times, advance to the next space and step past it. -/
def skipFields : Nat → List Char → Option (List Char)
  | 0, l => some l
  | n + 1, l =>
    match strchrSuffix ' ' l with
    | none => none
    | some rest => skipFields n (rest.drop 1)

/-- One sscanf %lu conversion: skip isspace characters, then an
optionally signed run of decimal digits converted as by strtoul
(a negative value wraps modulo 2^64); no digits means a matching
failure. Returns the value and the rest of the input. -/
def scanULong (l : List Char) : Option (Nat × List Char) :=
  let l1 := l.dropWhile isCSpace
  let signAndRest : Bool × List Char :=
    match l1 with
    | '-' :: r => (true, r)
    | '+' :: r => (false, r)
    | _ => (false, l1)
  let ds := signAndRest.2.takeWhile Char.isDigit
  if ds.isEmpty then none
  else
    let v := (ds.foldl (fun a c => a * 10 + (c.toNat - 48)) 0) % U64
    some ((if signAndRest.1 then (U64 - v) % U64 else v), signAndRest.2.drop ds.length)

/-- The parsing part of readProcessStat (sysmonitor.c lines 388-422) on
the bytes read from /proc/[pid]/stat: fail on an empty read, anchor on
the first ')' (strchr, line 401), skip ") " (2 characters), skip 11
space-delimited fields, then read utime and stime with sscanf
"%lu %lu". -/
def readProcessStatOnBuffer (buffer : List Char) : Option (Nat × Nat) :=
  if buffer.isEmpty then none
  else
    match strchrSuffix ')' buffer with
    | none => none
    | some ptr =>
      let ptr2 := ptr.drop 2
      match skipFields 11 ptr2 with
      | none => none
      | some p14 =>
        match scanULong p14 with
        | none => none
        | some ur =>
          match scanULong ur.2 with
          | none => none
          | some sr => some (ur.1, sr.1)

/-- Follows the spec's words (§4.3, stat record): identical to
readProcessStatOnBuffer except that it anchors on the LAST closing
parenthesis of the line (strrchr) before the positional field count,
as the spec demands for names that themselves contain ')'. -/
def readProcessStatSpecAnchor (buffer : List Char) : Option (Nat × Nat) :=
  if buffer.isEmpty then none
  else
    match strrchrSuffix ')' buffer with
    | none => none
    | some ptr =>
      let ptr2 := ptr.drop 2
      match skipFields 11 ptr2 with
      | none => none
      | some p14 =>
        match scanULong p14 with
        | none => none
        | some ur =>
          match scanULong ur.2 with
          | none => none
          | some sr => some (ur.1, sr.1)

/-- readProcessName (sysmonitor.c lines 343-370) on the bytes of
/proc/[pid]/comm: fail on an empty read, keep at most 255 bytes
(name_size - 1 with name_size = 256), strip one trailing newline. -/
def readProcessNameOnBuffer (content : List Char) : Option (List Char) :=
  if content.isEmpty then none
  else
    let name := content.take 255
    some (if name.getLast? = some '\n' then name.dropLast else name)

/-- isNumeric (sysmonitor.c lines 326-338): non-empty and all decimal
digits. -/
def isNumeric : List Char → Bool
  | [] => false
  | l => l.all fun ch => decide ('0' ≤ ch) && decide (ch ≤ '9')

/-- C atoi: skip isspace characters, optional sign, decimal digits
(0 when there are none). -/
def atoiModel (l : List Char) : Int :=
  let l1 := l.dropWhile isCSpace
  let signAndRest : Bool × List Char :=
    match l1 with
    | '-' :: r => (true, r)
    | '+' :: r => (false, r)
    | _ => (false, l1)
  let ds := signAndRest.2.takeWhile Char.isDigit
  let v : Int := ds.foldl (fun a c => a * 10 + ((c.toNat : Int) - 48)) 0
  if signAndRest.1 then -v else v

/-- struct ProcessInfo (sysmonitor.c lines 314-321). cpu_percent is
never initialised by the collection loop (lines 481-487); it is only
written by the percentage pass at line 506 and only when the top
total_time is positive. -/
structure ProcessInfo where
  pid : Int
  name : String
  utime : Nat
  stime : Nat
  total_time : Nat
  cpu_percent : ℚ
deriving DecidableEq, Repr

/-- compareProcesses (sysmonitor.c lines 428-438): qsort comparator,
descending by total_time. -/
def compareProcesses (proc_a proc_b : ProcessInfo) : Int :=
  if proc_b.total_time > proc_a.total_time then 1
  else if proc_b.total_time < proc_a.total_time then -1
  else 0

/-- A list is sorted according to the comparator (adjacent pairs compare
≤ 0), i.e. descending by total_time — the postcondition qsort
guarantees for the processes array. -/
def isSortedDesc : List ProcessInfo → Bool
  | [] => true
  | [_] => true
  | a :: b :: rest => decide (compareProcesses a b ≤ 0) && isSortedDesc (b :: rest)

/-- One /proc directory entry as the census sees it: its name, the bytes
readable from /proc/[name]/stat (none when the open or read fails, e.g.
the process vanished or permission was denied) and likewise the bytes of
/proc/[name]/comm. -/
structure DirEntry where
  d_name : String
  statContent : Option String
  commContent : Option String
deriving DecidableEq, Repr

/-- The name wired into a record: the comm read result, or the
"[unknown]" sentinel when the open or the read fails (sysmonitor.c
lines 475-478). -/
def censusName (e : DirEntry) : String :=
  match e.commContent with
  | none => "[unknown]"
  | some c =>
    match readProcessNameOnBuffer c.data with
    | none => "[unknown]"
    | some n => String.mk n

/-- The per-entry body of the census loop (sysmonitor.c lines 460-488):
skip non-numeric names, skip entries whose stat record cannot be read or
parsed, substitute "[unknown]" for an unreadable name, and build the
record with total_time = utime + stime (u64 addition). The garbage
parameter stands for the indeterminate contents the uninitialised
cpu_percent field has at this point in the C program. -/
def processEntry (garbage : ℚ) (e : DirEntry) : Option ProcessInfo :=
  if isNumeric e.d_name.data then
    match e.statContent with
    | none => none
    | some statBuf =>
      match readProcessStatOnBuffer statBuf.data with
      | none => none
      | some us =>
        some { pid := atoiModel e.d_name.data, name := censusName e,
               utime := us.1, stime := us.2,
               total_time := (us.1 + us.2) % U64, cpu_percent := garbage }
  else none

/-- The collection loop of listTopProcesses (sysmonitor.c line 460):
read entries while fewer than 1024 records have been stored; a failing
entry is skipped without advancing process_count. -/
def collectProcesses (garbage : ℚ) : List DirEntry → Nat → List ProcessInfo
  | [], _ => []
  | e :: es, process_count =>
    if process_count < 1024 then
      match processEntry garbage e with
      | none => collectProcesses garbage es process_count
      | some r => r :: collectProcesses garbage es (process_count + 1)
    else []

/-- Insert into a descending-by-total_time list, keeping earlier equal
elements first. -/
def insertDesc (p : ProcessInfo) : List ProcessInfo → List ProcessInfo
  | [] => [p]
  | q :: qs => if p.total_time ≤ q.total_time then q :: insertDesc p qs else p :: q :: qs

/-- One refinement of the qsort call at line 500: qsort only guarantees
a comparator-sorted (descending by total_time) permutation, with an
unspecified order for ties; this insertion sort is such an order.
Claim C2 is proved over every comparator-sorted list, not only over
this refinement. -/
def sortDesc : List ProcessInfo → List ProcessInfo
  | [] => []
  | p :: ps => insertDesc p (sortDesc ps)

/-- The relative-percentage pass (sysmonitor.c lines 503-508): max_time
is the total_time of the first (top) record; only when it is positive is
cpu_percent overwritten with (100 * total_time) / max_time. -/
def assignPercentages : List ProcessInfo → List ProcessInfo
  | [] => []
  | p :: rest =>
    let max_time := p.total_time
    if 0 < max_time then
      (p :: rest).map fun q =>
        { q with cpu_percent := (100 * (q.total_time : ℚ)) / (max_time : ℚ) }
    else p :: rest

/-- The observable outcome of one census: the explicit "No processes
found." result (sysmonitor.c lines 493-497), or the rows that are
displayed (top 5 after sorting and the percentage pass). -/
inductive CensusResult where
  | noProcesses : CensusResult
  | display : List ProcessInfo → CensusResult
deriving DecidableEq, Repr

/-- listTopProcesses (sysmonitor.c lines 443-531) on a directory
listing: collect up to 1024 records, report the explicit empty result
when none survive, otherwise sort descending, assign relative
percentages and display the top 5. -/
def listTopProcessesModel (garbage : ℚ) (entries : List DirEntry) : CensusResult :=
  let processes := collectProcesses garbage entries 0
  if processes.isEmpty then CensusResult.noProcesses
  else CensusResult.display ((assignPercentages (sortDesc processes)).take 5)

-- ==================== SUPPORTING LEMMAS (CENSUS) ====================

theorem compareProcesses_le_zero {a b : ProcessInfo} :
    compareProcesses a b ≤ 0 ↔ b.total_time ≤ a.total_time := by
  unfold compareProcesses
  split_ifs with h1 h2
  · constructor
    · intro h; omega
    · intro h; omega
  · constructor
    · intro _; omega
    · intro _; omega
  · constructor
    · intro _; omega
    · intro _; omega

theorem isSortedDesc_cons {a : ProcessInfo} {l : List ProcessInfo}
    (h : isSortedDesc (a :: l) = true) : isSortedDesc l = true := by
  cases l with
  | nil => rfl
  | cons b bs =>
    unfold isSortedDesc at h
    rw [Bool.and_eq_true] at h
    exact h.2

theorem isSortedDesc_head_max {p : ProcessInfo} {rest : List ProcessInfo}
    (h : isSortedDesc (p :: rest) = true) :
    ∀ q ∈ p :: rest, q.total_time ≤ p.total_time := by
  induction rest generalizing p with
  | nil =>
    intro q hq
    rw [List.mem_singleton] at hq
    rw [hq]
  | cons b bs ih =>
    intro q hq
    have hpb : b.total_time ≤ p.total_time := by
      unfold isSortedDesc at h
      rw [Bool.and_eq_true, decide_eq_true_eq] at h
      exact compareProcesses_le_zero.mp h.1
    rcases List.mem_cons.mp hq with hqp | hq2
    · rw [hqp]
    · exact le_trans (ih (isSortedDesc_cons h) q hq2) hpb

theorem collectProcesses_stop (garbage : ℚ) (l : List DirEntry) (n : Nat)
    (hn : ¬ n < 1024) : collectProcesses garbage l n = [] := by
  cases l with
  | nil => rfl
  | cons e es =>
    unfold collectProcesses
    rw [if_neg hn]

theorem collectProcesses_skip (garbage : ℚ) (e : DirEntry)
    (he : processEntry garbage e = none) (xs ys : List DirEntry) (n : Nat) :
    collectProcesses garbage (xs ++ e :: ys) n =
      collectProcesses garbage (xs ++ ys) n := by
  induction xs generalizing n with
  | nil =>
    by_cases hn : n < 1024
    · simp only [List.nil_append]
      conv =>
        lhs
        unfold collectProcesses
      rw [if_pos hn, he]
    · rw [collectProcesses_stop garbage _ n hn, collectProcesses_stop garbage _ n hn]
  | cons x xs2 ih =>
    by_cases hn : n < 1024
    · simp only [List.cons_append]
      unfold collectProcesses
      rw [if_pos hn, if_pos hn]
      cases hx : processEntry garbage x with
      | none => exact ih n
      | some r => rw [ih (n + 1)]
    · rw [collectProcesses_stop garbage _ n hn, collectProcesses_stop garbage _ n hn]

theorem collectProcesses_length (garbage : ℚ) (l : List DirEntry) (n : Nat) :
    (collectProcesses garbage l n).length ≤ 1024 - n := by
  induction l generalizing n with
  | nil => simp [collectProcesses]
  | cons e es ih =>
    by_cases hn : n < 1024
    · unfold collectProcesses
      rw [if_pos hn]
      cases processEntry garbage e with
      | none => exact ih n
      | some r =>
        have := ih (n + 1)
        simp only [List.length_cons]
        omega
    · rw [collectProcesses_stop garbage _ n hn]
      simp

-- ==================== CENSUS CLAIMS ====================

/-- A stat line whose name field is "(my (weird) proc)": the true field
14 (utime) is 111 and field 15 (stime) is 222. -/
def weirdStatLine : String := "7 (my (weird) proc) S 1 1 1 1 1 1 1 1 1 1 111 222 333"

/-- Claim C1: the claim is right about what correct parsing requires,
but the code anchors on the FIRST closing parenthesis (strchr, line
401), not the last. On a name containing ')' the field count starts
inside the name and the code returns (1, 111) — the wrong fields —
while the spec-anchored parse (last parenthesis) returns the true
(utime, stime) = (111, 222). -/
theorem claim_C1 :
    readProcessStatOnBuffer weirdStatLine.data = some (1, 111) ∧
    readProcessStatSpecAnchor weirdStatLine.data = some (111, 222) ∧
    ((1, 111) : Nat × Nat) ≠ (111, 222) := by
  decide

/-- A directory entry for pid 1 whose stat record parses with
utime = stime = 0, so its total_time is 0. -/
def cexEntryC2 : DirEntry :=
  ⟨"1", some "1 (x) S 1 1 1 1 1 1 1 1 1 1 0 0 0", some "x\n"⟩

/-- Claim C2 as stated is false: a non-empty census whose top
total_time is 0 skips the percentage pass entirely (line 504 guards it
with max_time > 0), so cpu_percent keeps its prior — in C
indeterminate — contents (modelled by the garbage parameter, here 37)
and the top record's percentage is not 100. -/
theorem claim_C2_cex :
    listTopProcessesModel 37 [cexEntryC2] =
      CensusResult.display [⟨1, "x", 0, 0, 0, 37⟩] ∧
    (37 : ℚ) ≠ 100 := by
  refine ⟨by decide, by norm_num⟩

/-- Claim C2 (amended): for every non-empty comparator-sorted
(descending by total_time) record list whose top total_time is
positive, the percentage pass overwrites every record's cpu_percent
with (100 * total_time) / top.total_time, the top record's percentage
becomes exactly 100, and the first record is indeed maximal. With
total_time values [50, 50, 30, 10, 0] this yields the percentages
[100, 100, 60, 20, 0] (see the witness). -/
theorem claim_C2_amended (p : ProcessInfo) (rest : List ProcessInfo)
    (hsort : isSortedDesc (p :: rest) = true) (hpos : 0 < p.total_time) :
    assignPercentages (p :: rest) =
      (p :: rest).map (fun q =>
        { q with cpu_percent := (100 * (q.total_time : ℚ)) / (p.total_time : ℚ) }) ∧
    (assignPercentages (p :: rest)).head? = some { p with cpu_percent := 100 } ∧
    ∀ q ∈ p :: rest, q.total_time ≤ p.total_time := by
  have hmap : assignPercentages (p :: rest) =
      (p :: rest).map (fun q =>
        { q with cpu_percent := (100 * (q.total_time : ℚ)) / (p.total_time : ℚ) }) := by
    simp only [assignPercentages]
    rw [if_pos hpos]
  refine ⟨hmap, ?_, isSortedDesc_head_max hsort⟩
  rw [hmap]
  simp only [List.map_cons, List.head?_cons]
  have hne : ((p.total_time : ℚ)) ≠ 0 := by
    exact_mod_cast Nat.pos_iff_ne_zero.mp hpos
  rw [mul_div_assoc, div_self hne, mul_one]

/-- The ranking example of the spec, already in descending order. -/
def exListC2 : List ProcessInfo :=
  [⟨1, "a", 50, 0, 50, 0⟩, ⟨2, "b", 25, 25, 50, 0⟩, ⟨3, "c", 30, 0, 30, 0⟩,
   ⟨4, "d", 10, 0, 10, 0⟩, ⟨5, "e", 0, 0, 0, 0⟩]

theorem claim_C2_amended_witness :
    (assignPercentages exListC2).map (fun q => q.cpu_percent) =
      [100, 100, 60, 20, 0] := by
  have h := claim_C2_amended ⟨1, "a", 50, 0, 50, 0⟩
    [⟨2, "b", 25, 25, 50, 0⟩, ⟨3, "c", 30, 0, 30, 0⟩,
     ⟨4, "d", 10, 0, 10, 0⟩, ⟨5, "e", 0, 0, 0, 0⟩] (by decide) (by decide)
  have hx : exListC2 = ⟨1, "a", 50, 0, 50, 0⟩ ::
      [⟨2, "b", 25, 25, 50, 0⟩, ⟨3, "c", 30, 0, 30, 0⟩,
       ⟨4, "d", 10, 0, 10, 0⟩, ⟨5, "e", 0, 0, 0, 0⟩] := rfl
  rw [hx, h.1]
  simp only [List.map_cons, List.map_nil]
  norm_num

/-- Claim C9: (a) an entry whose per-process read fails (vanished
process, permission denial, malformed stat record — anything that makes
processEntry yield none) is excluded alone: the census of any listing
with it equals the census of the listing without it; (b) an entry whose
stat record reads fine but whose name read fails yields a record with
the "[unknown]" sentinel name and the parsed utime/stime; (c) when no
records survive, the census reports the explicit no-processes result
(the percentage step is never reached). -/
theorem claim_C9 :
    (∀ (garbage : ℚ) (xs ys : List DirEntry) (e : DirEntry),
      processEntry garbage e = none →
      listTopProcessesModel garbage (xs ++ e :: ys) =
        listTopProcessesModel garbage (xs ++ ys)) ∧
    (∀ (garbage : ℚ) (e : DirEntry) (statBuf : String) (u s : Nat),
      isNumeric e.d_name.data = true →
      e.statContent = some statBuf →
      readProcessStatOnBuffer statBuf.data = some (u, s) →
      e.commContent = none →
      processEntry garbage e =
        some ⟨atoiModel e.d_name.data, "[unknown]", u, s, (u + s) % U64, garbage⟩) ∧
    (∀ (garbage : ℚ) (entries : List DirEntry),
      collectProcesses garbage entries 0 = [] →
      listTopProcessesModel garbage entries = CensusResult.noProcesses) := by
  refine ⟨?_, ?_, ?_⟩
  · intro garbage xs ys e he
    unfold listTopProcessesModel
    rw [collectProcesses_skip garbage e he xs ys 0]
  · intro garbage e statBuf u s hnum hstat hread hcomm
    unfold processEntry censusName
    rw [hnum, hstat]
    simp only [hread, hcomm, if_true]
  · intro garbage entries h
    unfold listTopProcessesModel
    rw [h]
    rfl

/-- An entry whose stat record parses to utime 7, stime 8. -/
def goodEntryC9 : DirEntry :=
  ⟨"12", some "12 (ok) S 1 1 1 1 1 1 1 1 1 1 7 8 0", some "ok\n"⟩

/-- An entry whose stat file cannot be opened (vanished process). -/
def badEntryC9 : DirEntry := ⟨"13", none, some "gone\n"⟩

/-- An entry with a readable stat record but an unreadable comm file. -/
def noNameEntryC9 : DirEntry :=
  ⟨"14", some "14 (nn) S 1 1 1 1 1 1 1 1 1 1 2 3 0", none⟩

theorem claim_C9_witness :
    listTopProcessesModel 0 [goodEntryC9, badEntryC9] =
      listTopProcessesModel 0 [goodEntryC9] ∧
    processEntry 0 noNameEntryC9 =
      some ⟨atoiModel noNameEntryC9.d_name.data, "[unknown]", 2, 3,
        (2 + 3) % U64, 0⟩ ∧
    listTopProcessesModel 0 [badEntryC9] = CensusResult.noProcesses :=
  ⟨claim_C9.1 0 [goodEntryC9] [] badEntryC9 (by decide),
   claim_C9.2.1 0 noNameEntryC9 "14 (nn) S 1 1 1 1 1 1 1 1 1 1 2 3 0" 2 3
     (by decide) rfl (by decide) rfl,
   claim_C9.2.2 0 [badEntryC9] (by decide)⟩

/-- Claim C10: one census pass stores at most 1024 records (the
process_count < 1024 loop guard keeps every store inside the fixed
processes[1024] buffer), and once 1024 records have been stored the
loop stops — any further directory entries contribute nothing. -/
theorem claim_C10 :
    (∀ (garbage : ℚ) (entries : List DirEntry),
      (collectProcesses garbage entries 0).length ≤ 1024) ∧
    (∀ (garbage : ℚ) (entries : List DirEntry),
      collectProcesses garbage entries 1024 = []) := by
  constructor
  · intro garbage entries
    have := collectProcesses_length garbage entries 0
    omega
  · intro garbage entries
    exact collectProcesses_stop garbage entries 1024 (by omega)
